import Mathlib

/-!
Shallow embedding of the seal dispatch layer of filecoin-proofs
(src/seal.rs), together with proofs of the testable properties of its
specification.  Pure functions of the source become Lean functions,
filesystem effects become explicit state passing over an abstract
filesystem state, Rust `Result` values become an `Outcome` sum, and a
Rust process abort is modelled as the `Outcome.panic` constructor so
that "returns a typed error" and "aborts" are distinguishable
propositions.  The sealing backend (the external crate
`filecoin_proofs_v1`) is modelled as a record of operations; pipeline
functions are parameterised by it and additionally report the list of
backend operations they invoked.
-/

namespace Seal

/-- The closed set of sector shapes the registry knows
(SectorShape2KiB, SectorShape8MiB, SectorShape512MiB, SectorShape32GiB
in the source). -/
inductive ShapeVariant where
  | shape2KiB
  | shape8MiB
  | shape512MiB
  | shape32GiB
deriving DecidableEq, Repr

/-- Modelled from the spec: the protocol version of a proof type.  The
definition of the `Version` type is not under src/ (only its use in the
version guards is); the spec describes a version space with a single
currently supported value V1 and further, unsupported values, so
versions are modelled as natural numbers with V1 being 1. -/
abbrev Version := Nat

def Version.V1 : Version := 1

/-- Modelled from the spec: a proof type is a pair of a protocol
version and a sector size (spec section 3, ProofType).  The definition
of `RegisteredSealProof` is not under src/; the source file matches it
exhaustively against the four variants StackedDrg2KiBV1,
StackedDrg8MiBV1, StackedDrg512MiBV1 and StackedDrg32GiBV1, which are
the four (V1, size) combinations below. -/
structure RegisteredSealProof where
  version : Version
  sector_size : Nat
deriving DecidableEq, Repr

def RegisteredSealProof.StackedDrg2KiBV1 : RegisteredSealProof :=
  ⟨Version.V1, 2048⟩

def RegisteredSealProof.StackedDrg8MiBV1 : RegisteredSealProof :=
  ⟨Version.V1, 8388608⟩

def RegisteredSealProof.StackedDrg512MiBV1 : RegisteredSealProof :=
  ⟨Version.V1, 536870912⟩

def RegisteredSealProof.StackedDrg32GiBV1 : RegisteredSealProof :=
  ⟨Version.V1, 34359738368⟩

/-- Backend proof parameters produced by as_v1_config; opaque to this
layer beyond the sector size it is derived from. -/
structure PoRepConfig where
  sector_size : Nat
deriving DecidableEq, Repr

def RegisteredSealProof.as_v1_config (rp : RegisteredSealProof) : PoRepConfig :=
  ⟨rp.sector_size⟩

/-- Registry lookup from a sector size to its unique shape, the
dispatch table of the with_shape macro.  Modelled from the spec: the
macro itself is not under src/; per spec section 4.2 the dispatcher
resolves a sector size to exactly one shape of the fixed set and fails
for every other value. -/
def shapeForSize (size : Nat) : Option ShapeVariant :=
  if size = 2048 then some ShapeVariant.shape2KiB
  else if size = 8388608 then some ShapeVariant.shape8MiB
  else if size = 536870912 then some ShapeVariant.shape512MiB
  else if size = 34359738368 then some ShapeVariant.shape32GiB
  else none

/- Opaque scalar data of the layer: commitments, randomness, ids and
backend payloads are byte sequences or numbers whose internal structure
this layer never interprets. -/

abbrev Commitment := List Nat
abbrev ProverId := List Nat
abbrev SectorId := Nat
abbrev Ticket := List Nat
abbrev Path := Nat
abbrev StoreConfig := Nat
abbrev RawLabelsData := List Nat
abbrev RawVanillaData := List Nat
abbrev ReplicaId := List Nat

/-- One piece of user data: commitment plus unpadded size. -/
structure PieceInfo where
  commitment : Commitment
  size : Nat
deriving DecidableEq, Repr

/-- Error taxonomy of the layer (spec section 7).  The source reports
these through anyhow error values; the constructors carry the
discriminating information. -/
inductive SealError where
  | unsupportedVersion
  | unsupportedSectorSize (size : Nat)
  | cacheValidationFailed
  | labelConversionMismatch
  | backendFailure (msg : String)
deriving DecidableEq, Repr

/-- Result of running a piece of Rust code: an ok value, a typed error
returned to the caller, or a process abort with the abort message.  A
panic is distinct from an error: it never reaches the caller as a
value. -/
inductive Outcome (α : Type) where
  | ok (a : α)
  | err (e : SealError)
  | panic (msg : String)
deriving DecidableEq, Repr

/-- A raw backend labels value as it appears in a generic context in
the source: its concrete shape is carried as runtime type information
(this models the Any based downcast of the source, where a value of
type RawLabels of Tree can be tested against each concrete shape). -/
structure AnyRawLabels where
  shape : ShapeVariant
  data : RawLabelsData
deriving DecidableEq, Repr

/-- The label envelope: a tagged union over the four shapes, each
constructor holding the raw labels of that concrete shape. -/
inductive Labels where
  | stackedDrg2KiBV1 (raw : RawLabelsData)
  | stackedDrg8MiBV1 (raw : RawLabelsData)
  | stackedDrg512MiBV1 (raw : RawLabelsData)
  | stackedDrg32GiBV1 (raw : RawLabelsData)
deriving DecidableEq, Repr

/-- Constructor of the envelope variant of a given shape, used to state
the wrap and unwrap properties uniformly over shapes. -/
def Labels.ofShape (s : ShapeVariant) (raw : RawLabelsData) : Labels :=
  match s with
  | ShapeVariant.shape2KiB => Labels.stackedDrg2KiBV1 raw
  | ShapeVariant.shape8MiB => Labels.stackedDrg8MiBV1 raw
  | ShapeVariant.shape512MiB => Labels.stackedDrg512MiBV1 raw
  | ShapeVariant.shape32GiB => Labels.stackedDrg32GiBV1 raw

/-- The shape tag recorded in an envelope. -/
def Labels.tag : Labels → ShapeVariant
  | Labels.stackedDrg2KiBV1 _ => ShapeVariant.shape2KiB
  | Labels.stackedDrg8MiBV1 _ => ShapeVariant.shape8MiB
  | Labels.stackedDrg512MiBV1 _ => ShapeVariant.shape512MiB
  | Labels.stackedDrg32GiBV1 _ => ShapeVariant.shape32GiB

/-- Embedding of convert_labels of the source: match the proof type
against the four registry variants and downcast the generic raw labels
to the concrete shape of the matched arm; a failing downcast aborts
with the message of the source.  The final arm is unreachable for the
values of the closed proof type enumeration of the source. -/
def convert_labels (proof : RegisteredSealProof) (labels : AnyRawLabels) :
    Outcome Labels :=
  if proof = RegisteredSealProof.StackedDrg2KiBV1 then
    if labels.shape = ShapeVariant.shape2KiB then
      Outcome.ok (Labels.stackedDrg2KiBV1 labels.data)
    else Outcome.panic "invalid labels provided"
  else if proof = RegisteredSealProof.StackedDrg8MiBV1 then
    if labels.shape = ShapeVariant.shape8MiB then
      Outcome.ok (Labels.stackedDrg8MiBV1 labels.data)
    else Outcome.panic "invalid labels provided"
  else if proof = RegisteredSealProof.StackedDrg512MiBV1 then
    if labels.shape = ShapeVariant.shape512MiB then
      Outcome.ok (Labels.stackedDrg512MiBV1 labels.data)
    else Outcome.panic "invalid labels provided"
  else if proof = RegisteredSealProof.StackedDrg32GiBV1 then
    if labels.shape = ShapeVariant.shape32GiB then
      Outcome.ok (Labels.stackedDrg32GiBV1 labels.data)
    else Outcome.panic "invalid labels provided"
  else Outcome.panic "match on a value outside the closed proof type enumeration"

/-- Embedding of the Into implementation converting an envelope back to
raw labels of a target shape (the Tree type parameter of the source):
each arm downcasts its payload against the target shape and aborts with
the message of the source when the shapes differ. -/
def Labels.into (target : ShapeVariant) : Labels → Outcome RawLabelsData
  | Labels.stackedDrg2KiBV1 raw =>
    if target = ShapeVariant.shape2KiB then Outcome.ok raw
    else Outcome.panic "cannot convert 2kib into different structure"
  | Labels.stackedDrg8MiBV1 raw =>
    if target = ShapeVariant.shape8MiB then Outcome.ok raw
    else Outcome.panic "cannot convert 8Mib into different structure"
  | Labels.stackedDrg512MiBV1 raw =>
    if target = ShapeVariant.shape512MiB then Outcome.ok raw
    else Outcome.panic "cannot convert 512Mib into different structure"
  | Labels.stackedDrg32GiBV1 raw =>
    if target = ShapeVariant.shape32GiB then Outcome.ok raw
    else Outcome.panic "cannot convert 32gib into different structure"

/-- Abstract filesystem state: the set of on-disk cache artifacts,
each recorded with the cache path it lives under and the shape that
owns it.  The layer treats cache contents as opaque beyond existence
and consistency, so this is all the state the claims need. -/
abbrev FsState := List (Path × ShapeVariant)

/-- The backend operations a pipeline run may invoke, recorded so that
claims of the form "the backend is not invoked" are propositions. -/
inductive BackendCall where
  | clearCache (s : ShapeVariant)
  | sealPreCommitPhase1 (s : ShapeVariant)
  | validatePC2 (s : ShapeVariant)
  | sealPreCommitPhase2 (s : ShapeVariant)
  | computeCommD
deriving DecidableEq, Repr

abbrev Trace := List BackendCall

/-- Result of one public pipeline operation: the outcome, the
filesystem state after the call, and the backend operations invoked. -/
structure OpResult (α : Type) where
  out : Outcome α
  fs : FsState
  calls : Trace
deriving DecidableEq, Repr

/-- Phase 1 output of the backend (SealPreCommitPhase1Output of the
backend crate): raw labels of the dispatched shape, a store config and
the data commitment. -/
structure V1SealPreCommitPhase1Output where
  labels : RawLabelsData
  config : StoreConfig
  comm_d : Commitment
deriving DecidableEq, Repr

/-- Phase 2 output of the backend (SealPreCommitOutput of the backend
crate). -/
structure V1SealPreCommitOutput where
  comm_d : Commitment
  comm_r : Commitment
deriving DecidableEq, Repr

/-- The sealing backend, an external collaborator of this layer: each
field is one shape-specialised backend entry point the source
delegates to.  The pipeline embedding is parameterised by a backend so
that the orchestration theorems hold for every backend behaviour. -/
structure Backend where
  sealPreCommitPhase1 : ShapeVariant → PoRepConfig → Path → Path → Path →
    ProverId → SectorId → Ticket → List PieceInfo → FsState →
    Outcome V1SealPreCommitPhase1Output × FsState
  validateCacheForPrecommitPhase2 : ShapeVariant → Path → Path →
    V1SealPreCommitPhase1Output → FsState → Outcome Unit
  sealPreCommitPhase2 : ShapeVariant → PoRepConfig →
    V1SealPreCommitPhase1Output → Path → Path → FsState →
    Outcome V1SealPreCommitOutput × FsState
  clearCache : ShapeVariant → Path → FsState → Outcome Unit × FsState
  computeCommD : Nat → List PieceInfo → Outcome Commitment

/-- The output record of seal_pre_commit_phase1 of the source. -/
structure SealPreCommitPhase1Output where
  registered_proof : RegisteredSealProof
  labels : Labels
  config : StoreConfig
  comm_d : Commitment
deriving DecidableEq, Repr

/-- The output record of seal_pre_commit_phase2 of the source. -/
structure SealPreCommitPhase2Output where
  registered_proof : RegisteredSealProof
  comm_r : Commitment
  comm_d : Commitment
deriving DecidableEq, Repr

/-- The vanilla proof envelope of the source, tagged by shape. -/
inductive VanillaSealProof where
  | stackedDrg2KiBV1 (raw : RawVanillaData)
  | stackedDrg8MiBV1 (raw : RawVanillaData)
  | stackedDrg512MiBV1 (raw : RawVanillaData)
  | stackedDrg32GiBV1 (raw : RawVanillaData)
deriving DecidableEq, Repr

/-- The output record of seal_commit_phase1 of the source. -/
structure SealCommitPhase1Output where
  registered_proof : RegisteredSealProof
  vanilla_proofs : List (List VanillaSealProof)
  comm_r : Commitment
  comm_d : Commitment
  replica_id : ReplicaId
  seed : Ticket
  ticket : Ticket
deriving DecidableEq, Repr

/-- The output record of seal_commit_phase2 of the source. -/
structure SealCommitPhase2Output where
  proof : List Nat
deriving DecidableEq, Repr

/-- Embedding of clear_cache of the source: dispatch the sector size
through the shape table and call the backend clear for the matched
shape; an unknown size is the dispatch failure.  The dispatch failure
is the UnsupportedSectorSize error per spec section 4.2 (the dispatcher
itself is not under src/ and is modelled from the spec). -/
def clear_cache (bk : Backend) (sector_size : Nat) (cache_path : Path)
    (fs : FsState) : OpResult Unit :=
  match shapeForSize sector_size with
  | some s =>
    let r := bk.clearCache s cache_path fs
    ⟨r.1, r.2, [BackendCall.clearCache s]⟩
  | none => ⟨Outcome.err (SealError.unsupportedSectorSize sector_size), fs, []⟩

/-- Embedding of seal_pre_commit_phase1_inner of the source: call the
backend phase 1 for the dispatched shape, then wrap the returned raw
labels (whose concrete shape is the dispatched shape, as in the generic
Rust function) into the envelope via convert_labels, and assemble the
output record with the registered proof threaded through. -/
def seal_pre_commit_phase1_inner (bk : Backend) (s : ShapeVariant)
    (registered_proof : RegisteredSealProof)
    (cache_path in_path out_path : Path) (prover_id : ProverId)
    (sector_id : SectorId) (ticket : Ticket) (piece_infos : List PieceInfo)
    (fs : FsState) : OpResult SealPreCommitPhase1Output :=
  match bk.sealPreCommitPhase1 s registered_proof.as_v1_config cache_path
      in_path out_path prover_id sector_id ticket piece_infos fs with
  | (Outcome.ok o, fs2) =>
    match convert_labels registered_proof ⟨s, o.labels⟩ with
    | Outcome.ok ls =>
      ⟨Outcome.ok ⟨registered_proof, ls, o.config, o.comm_d⟩, fs2,
        [BackendCall.sealPreCommitPhase1 s]⟩
    | Outcome.err e => ⟨Outcome.err e, fs2, [BackendCall.sealPreCommitPhase1 s]⟩
    | Outcome.panic m => ⟨Outcome.panic m, fs2, [BackendCall.sealPreCommitPhase1 s]⟩
  | (Outcome.err e, fs2) => ⟨Outcome.err e, fs2, [BackendCall.sealPreCommitPhase1 s]⟩
  | (Outcome.panic m, fs2) => ⟨Outcome.panic m, fs2, [BackendCall.sealPreCommitPhase1 s]⟩

/-- Embedding of seal_pre_commit_phase1 of the source: guard the
protocol version first (the ensure of the source), then dispatch the
sector size of the proof type through the shape table. -/
def seal_pre_commit_phase1 (bk : Backend)
    (registered_proof : RegisteredSealProof)
    (cache_path in_path out_path : Path) (prover_id : ProverId)
    (sector_id : SectorId) (ticket : Ticket) (piece_infos : List PieceInfo)
    (fs : FsState) : OpResult SealPreCommitPhase1Output :=
  if registered_proof.version = Version.V1 then
    match shapeForSize registered_proof.sector_size with
    | some s =>
      seal_pre_commit_phase1_inner bk s registered_proof cache_path in_path
        out_path prover_id sector_id ticket piece_infos fs
    | none =>
      ⟨Outcome.err (SealError.unsupportedSectorSize registered_proof.sector_size),
        fs, []⟩
  else ⟨Outcome.err SealError.unsupportedVersion, fs, []⟩

/-- Embedding of seal_pre_commit_phase2_inner of the source: unwrap the
envelope toward the dispatched shape (the into call of the source,
which aborts on a shape mismatch), rebuild the backend phase 1 record,
validate the cache against it, and only then call the backend phase 2.
Errors of each step return immediately with the filesystem unchanged
and without the later backend calls. -/
def seal_pre_commit_phase2_inner (bk : Backend) (s : ShapeVariant)
    (phase1_output : SealPreCommitPhase1Output)
    (cache_path out_path : Path) (fs : FsState) :
    OpResult SealPreCommitPhase2Output :=
  match Labels.into s phase1_output.labels with
  | Outcome.panic m => ⟨Outcome.panic m, fs, []⟩
  | Outcome.err e => ⟨Outcome.err e, fs, []⟩
  | Outcome.ok raw =>
    match bk.validateCacheForPrecommitPhase2 s cache_path out_path
        ⟨raw, phase1_output.config, phase1_output.comm_d⟩ fs with
    | Outcome.err e => ⟨Outcome.err e, fs, [BackendCall.validatePC2 s]⟩
    | Outcome.panic m => ⟨Outcome.panic m, fs, [BackendCall.validatePC2 s]⟩
    | Outcome.ok _ =>
      match bk.sealPreCommitPhase2 s phase1_output.registered_proof.as_v1_config
          ⟨raw, phase1_output.config, phase1_output.comm_d⟩ cache_path
          out_path fs with
      | (Outcome.ok o, fs2) =>
        ⟨Outcome.ok ⟨phase1_output.registered_proof, o.comm_r, o.comm_d⟩, fs2,
          [BackendCall.validatePC2 s, BackendCall.sealPreCommitPhase2 s]⟩
      | (Outcome.err e, fs2) =>
        ⟨Outcome.err e, fs2,
          [BackendCall.validatePC2 s, BackendCall.sealPreCommitPhase2 s]⟩
      | (Outcome.panic m, fs2) =>
        ⟨Outcome.panic m, fs2,
          [BackendCall.validatePC2 s, BackendCall.sealPreCommitPhase2 s]⟩

/-- Embedding of seal_pre_commit_phase2 of the source: guard the
protocol version of the phase 1 output first, then dispatch its sector
size through the shape table. -/
def seal_pre_commit_phase2 (bk : Backend)
    (phase1_output : SealPreCommitPhase1Output) (cache_path out_path : Path)
    (fs : FsState) : OpResult SealPreCommitPhase2Output :=
  if phase1_output.registered_proof.version = Version.V1 then
    match shapeForSize phase1_output.registered_proof.sector_size with
    | some s =>
      seal_pre_commit_phase2_inner bk s phase1_output cache_path out_path fs
    | none =>
      ⟨Outcome.err
          (SealError.unsupportedSectorSize
            phase1_output.registered_proof.sector_size),
        fs, []⟩
  else ⟨Outcome.err SealError.unsupportedVersion, fs, []⟩

/-- Embedding of compute_comm_d of the source: a direct delegation to
the backend commitment computation over the sector size of the proof
type and the ordered piece infos.  The backend computation is modelled
from the spec as a pure function (spec section 4.4, Compute Comm D);
the filesystem state is threaded only to show it is returned
unchanged. -/
def compute_comm_d (bk : Backend) (registered_proof : RegisteredSealProof)
    (piece_infos : List PieceInfo) (fs : FsState) : OpResult Commitment :=
  ⟨bk.computeCommD registered_proof.sector_size piece_infos, fs,
    [BackendCall.computeCommD]⟩

/-- Embedding of seal_commit_phase1 of the source, whose body is a
todo macro: it aborts unconditionally with the message of the macro. -/
def seal_commit_phase1 (cache_path replica_path : Path)
    (prover_id : ProverId) (sector_id : SectorId) (ticket seed : Ticket)
    (pre_commit : SealPreCommitPhase2Output) (piece_infos : List PieceInfo)
    (fs : FsState) : OpResult SealCommitPhase1Output :=
  ⟨Outcome.panic "not yet implemented", fs, []⟩

/-- Embedding of seal_commit_phase2 of the source, whose body is a
todo macro: it aborts unconditionally with the message of the macro. -/
def seal_commit_phase2 (phase1_output : SealCommitPhase1Output)
    (prover_id : ProverId) (sector_id : SectorId) (fs : FsState) :
    OpResult SealCommitPhase2Output :=
  ⟨Outcome.panic "not yet implemented", fs, []⟩

/-- Embedding of verify_seal of the source, whose body is a todo
macro: it aborts unconditionally with the message of the macro. -/
def verify_seal (registered_proof : RegisteredSealProof)
    (comm_r_in comm_d_in : Commitment) (prover_id : ProverId)
    (sector_id : SectorId) (ticket seed : Ticket) (proof_vec : List Nat)
    (fs : FsState) : OpResult Bool :=
  ⟨Outcome.panic "not yet implemented", fs, []⟩

/-- Embedding of verify_batch_seal of the source, whose body is a todo
macro: it aborts unconditionally with the message of the macro. -/
def verify_batch_seal (registered_proof : RegisteredSealProof)
    (comm_r_ins comm_d_ins : List Commitment) (prover_ids : List ProverId)
    (sector_ids : List SectorId) (tickets seeds : List Ticket)
    (proof_vecs : List (List Nat)) (fs : FsState) : OpResult Bool :=
  ⟨Outcome.panic "not yet implemented", fs, []⟩

/-- Embedding of get_unsealed_range of the source, whose body is a
todo macro: it aborts unconditionally with the message of the macro. -/
def get_unsealed_range (registered_proof : RegisteredSealProof)
    (cache_path sealed_path output_path : Path) (prover_id : ProverId)
    (sector_id : SectorId) (comm_d : Commitment) (ticket : Ticket)
    (offset num_bytes : Nat) (fs : FsState) : OpResult Nat :=
  ⟨Outcome.panic "not yet implemented", fs, []⟩

/-- Modelled from the spec: a concrete sealing backend satisfying the
contracts of spec section 4.4, used to instantiate the quantified
theorems at concrete inputs.  Phase 1 writes one cache artifact for the
dispatched shape and succeeds; validation checks that the artifact of
the shape is present under the cache path; phase 2 succeeds and
produces a replica commitment; clear removes the artifacts of the
shape under the path and succeeds whether or not any are present; the
comm d computation is a pure function of the ordered piece infos. -/
def specBackend : Backend where
  sealPreCommitPhase1 := fun s _cfg cache_path _in _out _prover _sector
      _ticket piece_infos fs =>
    (Outcome.ok ⟨[piece_infos.length], 0, [piece_infos.length, 7]⟩,
      (cache_path, s) :: fs)
  validateCacheForPrecommitPhase2 := fun s cache_path _out _p1 fs =>
    if (cache_path, s) ∈ fs then Outcome.ok ()
    else Outcome.err SealError.cacheValidationFailed
  sealPreCommitPhase2 := fun _s _cfg p1 _cache _out fs =>
    (Outcome.ok ⟨p1.comm_d, [1, 2]⟩, fs)
  clearCache := fun s cache_path fs =>
    (Outcome.ok (),
      fs.filter (fun a => decide (¬(a.1 = cache_path ∧ a.2 = s))))
  computeCommD := fun _size piece_infos =>
    Outcome.ok (piece_infos.map (fun p => p.size))

/-- The registry proof type of a given shape (the unique V1 proof type
the registry associates with that shape), used to state the envelope
round trip uniformly over shapes. -/
def RegisteredSealProof.ofShape (s : ShapeVariant) : RegisteredSealProof :=
  match s with
  | ShapeVariant.shape2KiB => RegisteredSealProof.StackedDrg2KiBV1
  | ShapeVariant.shape8MiB => RegisteredSealProof.StackedDrg8MiBV1
  | ShapeVariant.shape512MiB => RegisteredSealProof.StackedDrg512MiBV1
  | ShapeVariant.shape32GiB => RegisteredSealProof.StackedDrg32GiBV1

/-- Helper for the phase 1 threading claim: whatever the backend does,
a successful phase 1 run carries the argument proof type in its output
record. -/
theorem seal_pre_commit_phase1_registered_aux (bk : Backend)
    (rp : RegisteredSealProof) (c i o : Path) (prover : ProverId)
    (sector : SectorId) (t : Ticket) (ps : List PieceInfo) (fs : FsState)
    (out : SealPreCommitPhase1Output)
    (h : (seal_pre_commit_phase1 bk rp c i o prover sector t ps fs).out =
      Outcome.ok out) :
    out.registered_proof = rp := by
  unfold seal_pre_commit_phase1 seal_pre_commit_phase1_inner at h
  split at h
  · split at h
    · split at h
      · split at h
        · simp at h
          rw [← h]
        · simp at h
        · simp at h
      · simp at h
      · simp at h
    · simp at h
  · simp at h

/-- Helper for the phase 2 threading claim: whatever the backend does,
a successful phase 2 run carries the proof type of the phase 1 output
it consumed. -/
theorem seal_pre_commit_phase2_registered_aux (bk : Backend)
    (p1 : SealPreCommitPhase1Output) (c o : Path) (fs : FsState)
    (out : SealPreCommitPhase2Output)
    (h : (seal_pre_commit_phase2 bk p1 c o fs).out = Outcome.ok out) :
    out.registered_proof = p1.registered_proof := by
  unfold seal_pre_commit_phase2 seal_pre_commit_phase2_inner at h
  split at h
  · split at h
    · split at h
      · simp at h
      · simp at h
      · split at h
        · simp at h
        · simp at h
        · split at h
          · simp at h
            rw [← h]
          · simp at h
          · simp at h
    · simp at h
  · simp at h

/-- Claim C1: for distinct shapes, unwrapping an envelope wrapped with
one shape against the other does not return the typed
LabelConversionMismatch error: the conversion aborts the process with
the panic message of the source.  Shown at the failing inputs of the
2KiB and 8MiB shapes, for every label payload. -/
theorem unwrap_mismatch_aborts (L : RawLabelsData) :
    Labels.into ShapeVariant.shape8MiB (Labels.stackedDrg2KiBV1 L) =
      Outcome.panic "cannot convert 2kib into different structure" ∧
    Labels.into ShapeVariant.shape2KiB (Labels.stackedDrg8MiBV1 L) =
      Outcome.panic "cannot convert 8Mib into different structure" :=
  ⟨rfl, rfl⟩

/-- Claim C2: a sector size outside the registry table makes
clear_cache, seal_pre_commit_phase1 and seal_pre_commit_phase2 return
the UnsupportedSectorSize error as a value, with the filesystem
untouched and no backend invocation, for every backend. -/
theorem entry_points_unsupported_sector_size (bk : Backend) (size : Nat)
    (cache_path : Path) (fs : FsState) (rp : RegisteredSealProof)
    (c i o : Path) (prover : ProverId) (sector : SectorId) (t : Ticket)
    (ps : List PieceInfo) (p1 : SealPreCommitPhase1Output)
    (hsize : shapeForSize size = none)
    (hrpv : rp.version = Version.V1)
    (hrps : shapeForSize rp.sector_size = none)
    (hp1v : p1.registered_proof.version = Version.V1)
    (hp1s : shapeForSize p1.registered_proof.sector_size = none) :
    clear_cache bk size cache_path fs =
      ⟨Outcome.err (SealError.unsupportedSectorSize size), fs, []⟩ ∧
    seal_pre_commit_phase1 bk rp c i o prover sector t ps fs =
      ⟨Outcome.err (SealError.unsupportedSectorSize rp.sector_size), fs, []⟩ ∧
    seal_pre_commit_phase2 bk p1 c o fs =
      ⟨Outcome.err
          (SealError.unsupportedSectorSize p1.registered_proof.sector_size),
        fs, []⟩ := by
  refine ⟨?_, ?_, ?_⟩ <;>
    simp [clear_cache, seal_pre_commit_phase1, seal_pre_commit_phase2,
      hsize, hrpv, hrps, hp1v, hp1s]

/-- Witness for claim C2 at the concrete unsupported size 1000. -/
theorem entry_points_unsupported_sector_size_witness :
    shapeForSize 1000 = none ∧
    (RegisteredSealProof.mk 1 1000).version = Version.V1 ∧
    shapeForSize (RegisteredSealProof.mk 1 1000).sector_size = none ∧
    (SealPreCommitPhase1Output.mk ⟨1, 1000⟩ (Labels.stackedDrg2KiBV1 []) 0
        []).registered_proof.version = Version.V1 ∧
    shapeForSize
        (SealPreCommitPhase1Output.mk ⟨1, 1000⟩ (Labels.stackedDrg2KiBV1 [])
          0 []).registered_proof.sector_size = none ∧
    (clear_cache specBackend 1000 0 [] =
        ⟨Outcome.err (SealError.unsupportedSectorSize 1000), [], []⟩ ∧
      seal_pre_commit_phase1 specBackend ⟨1, 1000⟩ 0 1 2 [] 5 [] [] [] =
        ⟨Outcome.err
            (SealError.unsupportedSectorSize
              (RegisteredSealProof.mk 1 1000).sector_size),
          [], []⟩ ∧
      seal_pre_commit_phase2 specBackend
          ⟨⟨1, 1000⟩, Labels.stackedDrg2KiBV1 [], 0, []⟩ 0 2 [] =
        ⟨Outcome.err
            (SealError.unsupportedSectorSize
              (SealPreCommitPhase1Output.mk ⟨1, 1000⟩
                  (Labels.stackedDrg2KiBV1 []) 0
                  []).registered_proof.sector_size),
          [], []⟩) :=
  ⟨by decide, by decide, by decide, by decide, by decide,
    entry_points_unsupported_sector_size specBackend 1000 0 []
      ⟨1, 1000⟩ 0 1 2 [] 5 [] []
      ⟨⟨1, 1000⟩, Labels.stackedDrg2KiBV1 [], 0, []⟩
      (by decide) (by decide) (by decide) (by decide) (by decide)⟩

/-- Claim C3, counterexample: a phase 1 output whose envelope carries
the 8MiB shape under the 2KiB proof type, run against an empty cache
(inconsistent with the output, as the second conjunct shows the
backend consistency check fails there), makes seal_pre_commit_phase2
abort in the label conversion instead of failing with the
CacheValidationFailed error, and the cache check is never reached. -/
theorem phase2_mismatched_envelope_not_cache_error :
    seal_pre_commit_phase2 specBackend
        ⟨RegisteredSealProof.StackedDrg2KiBV1, Labels.stackedDrg8MiBV1 [0],
          0, []⟩ 0 1 [] =
      ⟨Outcome.panic "cannot convert 8Mib into different structure", [], []⟩ ∧
    specBackend.validateCacheForPrecommitPhase2 ShapeVariant.shape2KiB 0 1
        ⟨[0], 0, []⟩ [] = Outcome.err SealError.cacheValidationFailed :=
  ⟨by decide, by decide⟩

/-- Claim C3 as amended: for a phase 1 output whose envelope matches
the shape of its registered proof, a failing cache consistency check
makes seal_pre_commit_phase2 return the CacheValidationFailed error
with the filesystem unchanged and with the validation as the only
backend call, so no backend phase 2 work is started. -/
theorem phase2_cache_validation_before_backend (bk : Backend)
    (p1 : SealPreCommitPhase1Output) (cache_path out_path : Path)
    (fs : FsState) (s : ShapeVariant) (raw : RawLabelsData)
    (hv : p1.registered_proof.version = Version.V1)
    (hs : shapeForSize p1.registered_proof.sector_size = some s)
    (hun : Labels.into s p1.labels = Outcome.ok raw)
    (hval : bk.validateCacheForPrecommitPhase2 s cache_path out_path
        ⟨raw, p1.config, p1.comm_d⟩ fs =
      Outcome.err SealError.cacheValidationFailed) :
    seal_pre_commit_phase2 bk p1 cache_path out_path fs =
      ⟨Outcome.err SealError.cacheValidationFailed, fs,
        [BackendCall.validatePC2 s]⟩ := by
  simp [seal_pre_commit_phase2, hv, hs, seal_pre_commit_phase2_inner,
    hun, hval]

/-- Witness for the amended claim C3: a well formed 2KiB phase 1
output against an empty cache. -/
theorem phase2_cache_validation_before_backend_witness :
    (SealPreCommitPhase1Output.mk RegisteredSealProof.StackedDrg2KiBV1
        (Labels.stackedDrg2KiBV1 [3]) 0
        [9]).registered_proof.version = Version.V1 ∧
    shapeForSize
        (SealPreCommitPhase1Output.mk RegisteredSealProof.StackedDrg2KiBV1
          (Labels.stackedDrg2KiBV1 [3]) 0
          [9]).registered_proof.sector_size = some ShapeVariant.shape2KiB ∧
    Labels.into ShapeVariant.shape2KiB (Labels.stackedDrg2KiBV1 [3]) =
      Outcome.ok [3] ∧
    specBackend.validateCacheForPrecommitPhase2 ShapeVariant.shape2KiB 0 1
        ⟨[3], 0, [9]⟩ [] = Outcome.err SealError.cacheValidationFailed ∧
    seal_pre_commit_phase2 specBackend
        ⟨RegisteredSealProof.StackedDrg2KiBV1, Labels.stackedDrg2KiBV1 [3],
          0, [9]⟩ 0 1 [] =
      ⟨Outcome.err SealError.cacheValidationFailed, [],
        [BackendCall.validatePC2 ShapeVariant.shape2KiB]⟩ :=
  ⟨by decide, by decide, by decide, by decide,
    phase2_cache_validation_before_backend specBackend
      ⟨RegisteredSealProof.StackedDrg2KiBV1, Labels.stackedDrg2KiBV1 [3],
        0, [9]⟩ 0 1 [] ShapeVariant.shape2KiB [3]
      (by decide) (by decide) (by decide) (by decide)⟩

/-- Claim C4: a proof type whose protocol version is not the single
supported one makes both pre commit phases return the
UnsupportedVersion error immediately, with the filesystem unchanged
and without any backend invocation, for every backend. -/
theorem version_guard_rejects_before_backend (bk : Backend)
    (rp : RegisteredSealProof) (c i o : Path) (prover : ProverId)
    (sector : SectorId) (t : Ticket) (ps : List PieceInfo) (fs : FsState)
    (p1 : SealPreCommitPhase1Output) (c2 o2 : Path)
    (h1 : rp.version ≠ Version.V1)
    (h2 : p1.registered_proof.version ≠ Version.V1) :
    seal_pre_commit_phase1 bk rp c i o prover sector t ps fs =
      ⟨Outcome.err SealError.unsupportedVersion, fs, []⟩ ∧
    seal_pre_commit_phase2 bk p1 c2 o2 fs =
      ⟨Outcome.err SealError.unsupportedVersion, fs, []⟩ := by
  constructor <;>
    simp [seal_pre_commit_phase1, seal_pre_commit_phase2, h1, h2]

/-- Witness for claim C4 at the concrete unsupported version 2. -/
theorem version_guard_rejects_before_backend_witness :
    (RegisteredSealProof.mk 2 2048).version ≠ Version.V1 ∧
    (SealPreCommitPhase1Output.mk ⟨2, 2048⟩ (Labels.stackedDrg2KiBV1 []) 0
        []).registered_proof.version ≠ Version.V1 ∧
    (seal_pre_commit_phase1 specBackend ⟨2, 2048⟩ 0 1 2 [] 5 [] [] [] =
        ⟨Outcome.err SealError.unsupportedVersion, [], []⟩ ∧
      seal_pre_commit_phase2 specBackend
          ⟨⟨2, 2048⟩, Labels.stackedDrg2KiBV1 [], 0, []⟩ 0 1 [] =
        ⟨Outcome.err SealError.unsupportedVersion, [], []⟩) :=
  ⟨by decide, by decide,
    version_guard_rejects_before_backend specBackend ⟨2, 2048⟩ 0 1 2 [] 5
      [] [] [] ⟨⟨2, 2048⟩, Labels.stackedDrg2KiBV1 [], 0, []⟩ 0 1
      (by decide) (by decide)⟩

/-- Claim C5: wrapping raw labels of a shape and unwrapping the
envelope against the same shape is the identity on the labels, for
every shape and payload. -/
theorem wrap_unwrap_round_trip (s : ShapeVariant) (L : RawLabelsData) :
    convert_labels (RegisteredSealProof.ofShape s) ⟨s, L⟩ =
      Outcome.ok (Labels.ofShape s L) ∧
    Labels.into s (Labels.ofShape s L) = Outcome.ok L := by
  cases s <;> exact ⟨rfl, rfl⟩

/-- Claim C6: verify_batch_seal does not return the conjunction of the
individual verifications: at the empty batch, where every entry is
vacuously valid and the claim requires the result true, the source
aborts through its todo macro instead of returning. -/
theorem verify_batch_seal_unimplemented_aborts :
    verify_batch_seal RegisteredSealProof.StackedDrg2KiBV1 [] [] [] [] []
        [] [] [] =
      ⟨Outcome.panic "not yet implemented", [], []⟩ :=
  rfl

/-- Claim C7: for a supported sector size, clearing the cache twice in
succession on the same path succeeds on the second call as well. -/
theorem clear_cache_idempotent (size : Nat) (cache_path : Path)
    (fs : FsState) (s : ShapeVariant) (h : shapeForSize size = some s) :
    (clear_cache specBackend size cache_path fs).out = Outcome.ok () ∧
    (clear_cache specBackend size cache_path
        (clear_cache specBackend size cache_path fs).fs).out =
      Outcome.ok () := by
  constructor <;> simp [clear_cache, h, specBackend]

/-- Witness for claim C7 at the 2KiB size on a cache holding one
artifact of that shape. -/
theorem clear_cache_idempotent_witness :
    shapeForSize 2048 = some ShapeVariant.shape2KiB ∧
    ((clear_cache specBackend 2048 0
          [(0, ShapeVariant.shape2KiB)]).out = Outcome.ok () ∧
      (clear_cache specBackend 2048 0
          (clear_cache specBackend 2048 0
            [(0, ShapeVariant.shape2KiB)]).fs).out = Outcome.ok ()) :=
  ⟨by decide,
    clear_cache_idempotent 2048 0 [(0, ShapeVariant.shape2KiB)]
      ShapeVariant.shape2KiB (by decide)⟩

/-- Claim C8: compute_comm_d is a pure function of the proof type and
the ordered piece infos: its outcome does not depend on the filesystem
state, the filesystem is returned unchanged, and the only backend
operation invoked is the commitment computation, never a sealing
phase. -/
theorem compute_comm_d_pure (bk : Backend) (rp : RegisteredSealProof)
    (ps : List PieceInfo) (fs fs2 : FsState) :
    (compute_comm_d bk rp ps fs).out = (compute_comm_d bk rp ps fs2).out ∧
    (compute_comm_d bk rp ps fs).fs = fs ∧
    (compute_comm_d bk rp ps fs).calls = [BackendCall.computeCommD] :=
  ⟨rfl, rfl, rfl⟩

/-- Claim C9: the registered proof is threaded unchanged through the
pre commit phases: a successful phase 1 run returns its argument proof
type, and a successful phase 2 run returns the proof type of the phase
1 output it consumed, for every backend. -/
theorem registered_proof_threaded (bk : Backend)
    (rp : RegisteredSealProof) (c i o : Path) (prover : ProverId)
    (sector : SectorId) (t : Ticket) (ps : List PieceInfo) (fs : FsState)
    (out : SealPreCommitPhase1Output) (p1 : SealPreCommitPhase1Output)
    (c2 o2 : Path) (fs2 : FsState) (out2 : SealPreCommitPhase2Output)
    (h1 : (seal_pre_commit_phase1 bk rp c i o prover sector t ps fs).out =
      Outcome.ok out)
    (h2 : (seal_pre_commit_phase2 bk p1 c2 o2 fs2).out = Outcome.ok out2) :
    out.registered_proof = rp ∧
    out2.registered_proof = p1.registered_proof :=
  ⟨seal_pre_commit_phase1_registered_aux bk rp c i o prover sector t ps fs
      out h1,
    seal_pre_commit_phase2_registered_aux bk p1 c2 o2 fs2 out2 h2⟩

/-- Witness for claim C9: a concrete successful phase 1 and phase 2
run over the spec modelled backend. -/
theorem registered_proof_threaded_witness :
    (seal_pre_commit_phase1 specBackend
          RegisteredSealProof.StackedDrg2KiBV1 0 1 2 [] 0 [] [] []).out =
      Outcome.ok
        ⟨RegisteredSealProof.StackedDrg2KiBV1, Labels.stackedDrg2KiBV1 [0],
          0, [0, 7]⟩ ∧
    (seal_pre_commit_phase2 specBackend
          ⟨RegisteredSealProof.StackedDrg2KiBV1,
            Labels.stackedDrg2KiBV1 [0], 0, [0, 7]⟩ 0 2
          [(0, ShapeVariant.shape2KiB)]).out =
      Outcome.ok
        ⟨RegisteredSealProof.StackedDrg2KiBV1, [1, 2], [0, 7]⟩ ∧
    ((SealPreCommitPhase1Output.mk RegisteredSealProof.StackedDrg2KiBV1
          (Labels.stackedDrg2KiBV1 [0]) 0 [0, 7]).registered_proof =
        RegisteredSealProof.StackedDrg2KiBV1 ∧
      (SealPreCommitPhase2Output.mk RegisteredSealProof.StackedDrg2KiBV1
          [1, 2] [0, 7]).registered_proof =
        (SealPreCommitPhase1Output.mk RegisteredSealProof.StackedDrg2KiBV1
          (Labels.stackedDrg2KiBV1 [0]) 0 [0, 7]).registered_proof) :=
  ⟨by decide, by decide,
    registered_proof_threaded specBackend
      RegisteredSealProof.StackedDrg2KiBV1 0 1 2 [] 0 [] [] []
      ⟨RegisteredSealProof.StackedDrg2KiBV1, Labels.stackedDrg2KiBV1 [0],
        0, [0, 7]⟩
      ⟨RegisteredSealProof.StackedDrg2KiBV1, Labels.stackedDrg2KiBV1 [0],
        0, [0, 7]⟩
      0 2 [(0, ShapeVariant.shape2KiB)]
      ⟨RegisteredSealProof.StackedDrg2KiBV1, [1, 2], [0, 7]⟩
      (by decide) (by decide)⟩

/-- Claim C10: the commit phases, the verification operations and the
unsealing operation are unimplemented: on every input each of them
aborts through the todo macro of the source, returning neither a value
nor a typed error. -/
theorem unimplemented_operations_abort :
    (∀ c r prover sector t sd pc ps fs,
      seal_commit_phase1 c r prover sector t sd pc ps fs =
        ⟨Outcome.panic "not yet implemented", fs, []⟩) ∧
    (∀ p1 prover sector fs,
      seal_commit_phase2 p1 prover sector fs =
        ⟨Outcome.panic "not yet implemented", fs, []⟩) ∧
    (∀ rp cr cd prover sector t sd pv fs,
      verify_seal rp cr cd prover sector t sd pv fs =
        ⟨Outcome.panic "not yet implemented", fs, []⟩) ∧
    (∀ rp crs cds provers sectors ts sds pvs fs,
      verify_batch_seal rp crs cds provers sectors ts sds pvs fs =
        ⟨Outcome.panic "not yet implemented", fs, []⟩) ∧
    (∀ rp c sp op prover sector cd t off n fs,
      get_unsealed_range rp c sp op prover sector cd t off n fs =
        ⟨Outcome.panic "not yet implemented", fs, []⟩) :=
  ⟨fun _ _ _ _ _ _ _ _ _ => rfl, fun _ _ _ _ => rfl,
    fun _ _ _ _ _ _ _ _ _ => rfl, fun _ _ _ _ _ _ _ _ _ => rfl,
    fun _ _ _ _ _ _ _ _ _ _ _ => rfl⟩

end Seal
